import Mathlib

/-!
Shallow embedding of the Grafomer / student-weight-synthesis code
(`model.py`, `student_model.py`) and proofs about it.

The first part embeds, at Python-exception granularity, the weight-group
selection (`TeacherWeightGroup.generate_weight_group`) and the constructors
`WeightGenerator.__init__`, `BiasGenerator.__init__`,
`StudentLinear.__init__` from `student_model.py`.  The method bodies of
`generate_weight_group` reference the names `class_name`, `layer_index` and
`num_layers`, which are not bound anywhere (the parameters are called
`weight_class_name`, `current_layer_index`, `num_student_layers`), so every
call raises a Python exception; the embedding records exactly which
exception is raised on each control path.
-/

/-- Python exceptions that the embedded fragments can raise. -/
inductive PyError where
  | nameError : String → PyError
  | attributeError : String → PyError
  | valueError : String → PyError
  | runtimeError : String → PyError
  | indexError : String → PyError
deriving Repr, DecidableEq

/-- The teacher network as seen by `TeacherWeightGroup`: a module exposing
`encoder` and `decoder` submodules, each of which yields its ordered list of
`(name, parameter)` pairs via `named_parameters()`.  `P` is the type of the
parameter tensors (never inspected by the code paths modelled here). -/
structure TeacherModel (P : Type) where
  encoder : List (String × P)
  decoder : List (String × P)

/-- The Python idiom `s.split(".", 1)` followed by unpacking into two variables:
returns the text before the first dot and the rest, or `none` when there is
no dot (in which case the unpacking raises `ValueError`). -/
def splitDotOnce : List Char → Option (List Char × List Char)
  | [] => none
  | c :: rest =>
    if c = '.' then some ([], rest)
    else (splitDotOnce rest).map fun p => (c :: p.1, p.2)

/-- `TeacherWeightGroup.generate_weight_group` (student_model.py lines
36-60), embedded at exception granularity.  The class-level
`teacher_model` attribute is passed explicitly as `teacher_model`
(`none` = never registered).  The body:

* `part, weight_class_name = weight_class_name.split(".", 1)` raises
  `ValueError` when the role string contains no dot;
* with `part == "encoder"` (resp. `"decoder"`), the `for` statement
  evaluates `TeacherWeightGroup.teacher_model.encoder.named_parameters()`,
  raising `AttributeError` when no teacher was registered;
* the first loop iteration evaluates `if class_name in instance_name`,
  and `class_name` is an unbound name, so a non-empty parameter list
  raises `NameError`;
* an empty parameter list (or a `part` that is neither `"encoder"` nor
  `"decoder"`) leaves `weight_instances` empty, and
  `torch.stack(weight_instances)` raises `RuntimeError`.

Consequently no path reaches the slicing at lines 58-60 (which would
itself raise `NameError` on the unbound `layer_index` / `num_layers`). -/
def TeacherWeightGroup.generate_weight_group {P : Type}
    (teacher_model : Option (TeacherModel P))
    (weight_class_name : String)
    (current_layer_index : Int) (num_student_layers : Int) :
    Except PyError (List P) :=
  match splitDotOnce weight_class_name.data with
  | none => .error (.valueError "not enough values to unpack (expected 2, got 1)")
  | some (part, _rest) =>
    if part = "encoder".data then
      match teacher_model with
      | none => .error (.attributeError "NoneType object has no attribute encoder")
      | some t =>
        match t.encoder with
        | [] => .error (.runtimeError "stack expects a non-empty TensorList")
        | _ :: _ => .error (.nameError "name class_name is not defined")
    else if part = "decoder".data then
      match teacher_model with
      | none => .error (.attributeError "NoneType object has no attribute decoder")
      | some t =>
        match t.decoder with
        | [] => .error (.runtimeError "stack expects a non-empty TensorList")
        | _ :: _ => .error (.nameError "name class_name is not defined")
    else
      .error (.runtimeError "stack expects a non-empty TensorList")

/-- `WeightGenerator.__init__` (student_model.py lines 64-84).  The first
statement is `self.subset = TeacherWeightGroup.generate_weight_group(...)`,
so any exception raised there propagates.  Were a subset ever produced, the
subsequent `self.W_l = nn.Parameter(...)` would raise `AttributeError`
because the constructor never calls `nn.Module.__init__` (and
`init_weights_` would then read the undefined attributes `W_i`, `W_o`).
The success type is `Empty`: no execution path returns an object. -/
def WeightGenerator.init {P : Type}
    (teacher_model : Option (TeacherModel P))
    (weight_class_name : String)
    (current_layer_index : Int) (num_student_layers : Int)
    (student_weight_in : Int) (student_weight_out : Int) :
    Except PyError Empty :=
  (TeacherWeightGroup.generate_weight_group teacher_model weight_class_name
      current_layer_index num_student_layers).bind fun _subset =>
    .error (.attributeError "cannot assign parameters before Module.__init__() call")

/-- `BiasGenerator.__init__` (student_model.py lines 101-120): same
structure as `WeightGenerator.__init__`, same failure behaviour. -/
def BiasGenerator.init {P : Type}
    (teacher_model : Option (TeacherModel P))
    (weight_class_name : String)
    (current_layer_index : Int) (num_student_layers : Int)
    (student_out_features : Int) :
    Except PyError Empty :=
  (TeacherWeightGroup.generate_weight_group teacher_model weight_class_name
      current_layer_index num_student_layers).bind fun _subset =>
    .error (.attributeError "cannot assign parameters before Module.__init__() call")

/-- `StudentLinear.__init__` (student_model.py lines 184-205): constructs a
`WeightGenerator` and then a `BiasGenerator`, propagating their
exceptions. -/
def StudentLinear.init {P : Type}
    (teacher_model : Option (TeacherModel P))
    (weight_class_name : String)
    (current_layer_index : Int) (num_student_layers : Int)
    (in_features : Int) (out_features : Int) :
    Except PyError Empty :=
  (WeightGenerator.init teacher_model weight_class_name current_layer_index
      num_student_layers in_features out_features).bind fun _wg =>
    BiasGenerator.init teacher_model weight_class_name current_layer_index
      num_student_layers out_features

/-- A concrete teacher network for evaluations: 12 encoder parameters whose
names follow the `layer.<i>.attention.self.query.weight` pattern and 12
decoder parameters named `h.<i>.mlp.c_fc.weight`, with the parameter
tensors represented by their layer indices. -/
def teacher12 : TeacherModel Nat :=
  { encoder := (List.range 12).map fun i =>
      ("layer." ++ toString i ++ ".attention.self.query.weight", i)
    decoder := (List.range 12).map fun i =>
      ("h." ++ toString i ++ ".mlp.c_fc.weight", i) }

example :
    TeacherWeightGroup.generate_weight_group (some teacher12)
      "encoder.attention.self.query" 0 4 =
      .error (.nameError "name class_name is not defined") := by rfl

example :
    TeacherWeightGroup.generate_weight_group (P := Nat) none
      "encoder.attention.self.query" 0 4 =
      .error (.attributeError "NoneType object has no attribute encoder") := by rfl

/-!
Real-valued embedding of the forward computations (student_model.py lines
91-97, 126-132, 207-212).  Tensors are total functions from (natural
number) indices to reals; the stacked teacher subset for a weight has
shape `(adj, out, in)` and is a function of three indices, for a bias
`(adj, out)` and a function of two.  The activation stored in `self.tanh`
is carried as an explicit field so that theorems can instantiate it with
the real hyperbolic tangent, which is what `nn.Tanh()` computes.
-/

/-- `multi_mode_dot(subset, modes=[0], matrix_or_vec_list=[W_l])` with
`W_l` of shape `(1, adj)`, followed by `.squeeze(0)`, for a rank-3
`subset` of shape `(adj, out, in)`: the weighted sum over the adjacent
teacher layers. -/
def multi_mode_dot3 (adj : ℕ) (W_l : ℕ → ℝ) (subset : ℕ → ℕ → ℕ → ℝ) :
    ℕ → ℕ → ℝ :=
  fun o i => ∑ l ∈ Finset.range adj, W_l l * subset l o i

/-- The rank-2 (bias) variant of the same contraction. -/
def multi_mode_dot2 (adj : ℕ) (W_l : ℕ → ℝ) (subset : ℕ → ℕ → ℝ) :
    ℕ → ℝ :=
  fun o => ∑ l ∈ Finset.range adj, W_l l * subset l o

/-- The state a constructed `WeightGenerator` would hold: the teacher
subset, the mixing vector `W_l`, the recalibration scale `W` and offset
`B`, and the activation module `tanh`. -/
structure WeightGeneratorState where
  adj : ℕ
  subset : ℕ → ℕ → ℕ → ℝ
  W_l : ℕ → ℝ
  W : ℕ → ℕ → ℝ
  B : ℕ → ℕ → ℝ
  tanh : ℝ → ℝ

/-- The state a constructed `BiasGenerator` would hold. -/
structure BiasGeneratorState where
  adj : ℕ
  subset : ℕ → ℕ → ℝ
  W_l : ℕ → ℝ
  W : ℕ → ℝ
  B : ℕ → ℝ
  tanh : ℝ → ℝ

/-- `WeightGenerator.forward` (lines 91-97):
`self.tanh(multi_mode_dot(self.subset, [0], [self.W_l]).squeeze(0)) * self.W + self.B`.
The method mutates nothing, so it returns the synthesized tensor together
with the unchanged state. -/
def WeightGenerator.forward (s : WeightGeneratorState) :
    (ℕ → ℕ → ℝ) × WeightGeneratorState :=
  (fun o i => s.tanh (multi_mode_dot3 s.adj s.W_l s.subset o i) * s.W o i + s.B o i, s)

/-- `BiasGenerator.forward` (lines 126-132), same shape one rank lower. -/
def BiasGenerator.forward (s : BiasGeneratorState) :
    (ℕ → ℝ) × BiasGeneratorState :=
  (fun o => s.tanh (multi_mode_dot2 s.adj s.W_l s.subset o) * s.W o + s.B o, s)

/-- The state a `StudentLinear` would hold: its two generators. -/
structure StudentLinearState where
  weight_generator : WeightGeneratorState
  bias_generator : BiasGeneratorState

/-- `F.linear(inputs, weight, bias)`: `inputs @ weight^T + bias`, with
`inputs` a `(rows, in_features)` matrix. -/
def F.linear (in_features : ℕ) (inputs : ℕ → ℕ → ℝ) (weight : ℕ → ℕ → ℝ)
    (bias : ℕ → ℝ) : ℕ → ℕ → ℝ :=
  fun r o => (∑ k ∈ Finset.range in_features, inputs r k * weight o k) + bias o

/-- `StudentLinear.forward` (lines 207-212): regenerates the weight and the
bias from the paired generators on every call, then applies `F.linear`.
State is threaded explicitly to make any side effect visible. -/
def StudentLinear.forward (s : StudentLinearState) (in_features : ℕ)
    (inputs : ℕ → ℕ → ℝ) : (ℕ → ℕ → ℝ) × StudentLinearState :=
  let wr := WeightGenerator.forward s.weight_generator
  let br := BiasGenerator.forward s.bias_generator
  (F.linear in_features inputs wr.1 br.1,
   { weight_generator := wr.2, bias_generator := br.2 })

/-- The real hyperbolic tangent is bounded by 1 in absolute value. -/
lemma abs_tanh_le_one (x : ℝ) : |Real.tanh x| ≤ 1 := by
  rw [Real.tanh_eq_sinh_div_cosh, abs_div, abs_of_pos (Real.cosh_pos x),
    div_le_one (Real.cosh_pos x)]
  nlinarith [Real.cosh_sq x, Real.cosh_pos x, abs_nonneg (Real.sinh x),
    sq_abs (Real.sinh x)]

/-!
Embedding of `GrafomerModel` (`model.py`).  Hidden-state tensors have
abstract type `T`, token matrices type `Tok`, additive attention masks
type `M`; the pretrained encoder, the pretrained decoder body and head,
the graft module and the imported mask helpers `_expand_mask` /
`_make_causal_mask` are fields of the model record (they are external
collaborators loaded at construction time).  The forward pass (lines
93-158) is translated branch by branch.
-/

/-- The only field of the `Seq2SeqLMOutput` that `GrafomerModel.forward`
populates. -/
structure Seq2SeqLMOutput (T : Type) where
  logits : T

/-- Components of `GrafomerModel`.  `encoder` takes `(input_ids,
attention_mask)` and returns the output tuple (index 0 = hidden state);
`decoder_body` takes `(input_ids, attention_mask?, use_cache)`;
`graft_module` takes `(encoder_hidden, encoder_mask, decoder_hidden,
decoder_mask, cross_mask)`; `expand_mask m tgt_len?` is
`_expand_mask(m, dtype, tgt_len=...)` and `make_causal_mask shape` is
`_make_causal_mask(shape, dtype).to(device)`.  `tok_shape` and
`mask_shape` are the `.shape` accessors for token matrices and 2-D
masks. -/
structure GrafomerModel (T Tok M : Type) where
  encoder : Tok → Option M → List T
  decoder_body : Tok → Option M → Option Bool → List T
  decoder_head : T → T
  graft_module : T → M → T → M → M → T
  expand_mask : M → Option ℕ → M
  make_causal_mask : ℕ × ℕ → M
  tok_shape : Tok → ℕ × ℕ
  mask_shape : M → ℕ × ℕ

/-- `GrafomerModel.forward` (model.py lines 93-158).  When
`encoder_outputs` is absent the encoder runs; the train branch
(`decoder_input_ids is not None`) runs the decoder body on the decoder
inputs and builds `mask`, `dec_mask` (causal + padding) and `cross_mask`
from the two attention masks; the eval branch runs the decoder body on
`input_ids` and builds the causal mask from its shape.  The final hidden
state is `decoder_hidden + graft_output`, passed through the decoder
head. -/
def GrafomerModel.forward {T Tok M : Type} [Add T] [Add M] [Inhabited T]
    (m : GrafomerModel T Tok M)
    (input_ids : Tok) (attention_mask : M)
    (decoder_input_ids : Option Tok) (decoder_attention_mask : M)
    (encoder_outputs : Option (List T)) (use_cache : Option Bool) :
    Seq2SeqLMOutput T :=
  let encoder_outputs :=
    match encoder_outputs with
    | none => m.encoder input_ids none
    | some eo => eo
  let step :
      List T × M × M × M :=
    match decoder_input_ids with
    | some dii =>
      (m.decoder_body dii (some decoder_attention_mask) use_cache,
       m.expand_mask attention_mask none,
       m.make_causal_mask (m.mask_shape decoder_attention_mask) +
         m.expand_mask decoder_attention_mask none,
       m.expand_mask attention_mask (some (m.tok_shape dii).2))
    | none =>
      (m.decoder_body input_ids none use_cache,
       m.expand_mask attention_mask none,
       m.make_causal_mask (m.tok_shape input_ids),
       m.expand_mask attention_mask (some (m.tok_shape input_ids).2))
  let encoder_hidden_state := encoder_outputs.headI
  let decoder_hidden_state := step.1.headI
  let graformer_hidden_state :=
    m.graft_module encoder_hidden_state step.2.1 decoder_hidden_state
      step.2.2.1 step.2.2.2
  let output_hidden_states := decoder_hidden_state + graformer_hidden_state
  ⟨m.decoder_head output_hidden_states⟩

/-- The hidden state of the decoder body as `forward` computes it: the branch on
`decoder_input_ids` at lines 122-133, projected to output index 0. -/
def GrafomerModel.decoderHidden {T Tok M : Type} [Inhabited T]
    (m : GrafomerModel T Tok M)
    (input_ids : Tok) (decoder_input_ids : Option Tok)
    (decoder_attention_mask : M) (use_cache : Option Bool) : T :=
  match decoder_input_ids with
  | some dii => (m.decoder_body dii (some decoder_attention_mask) use_cache).headI
  | none => (m.decoder_body input_ids none use_cache).headI

/-- The output of the graft bridge as `forward` computes it (lines 127-151):
the graft module applied to the encoder hidden state, the decoder hidden
state and the three masks of the taken branch. -/
def GrafomerModel.bridgeOutput {T Tok M : Type} [Add M] [Inhabited T]
    (m : GrafomerModel T Tok M)
    (input_ids : Tok) (attention_mask : M)
    (decoder_input_ids : Option Tok) (decoder_attention_mask : M)
    (encoder_outputs : Option (List T)) (use_cache : Option Bool) : T :=
  let enc_h :=
    match encoder_outputs with
    | none => (m.encoder input_ids none).headI
    | some eo => eo.headI
  let dec_h := m.decoderHidden input_ids decoder_input_ids
    decoder_attention_mask use_cache
  match decoder_input_ids with
  | some dii =>
    m.graft_module enc_h (m.expand_mask attention_mask none) dec_h
      (m.make_causal_mask (m.mask_shape decoder_attention_mask) +
        m.expand_mask decoder_attention_mask none)
      (m.expand_mask attention_mask (some (m.tok_shape dii).2))
  | none =>
    m.graft_module enc_h (m.expand_mask attention_mask none) dec_h
      (m.make_causal_mask (m.tok_shape input_ids))
      (m.expand_mask attention_mask (some (m.tok_shape input_ids).2))

/-!
Embedding of the generation-input preparation steps.  Token-id matrices
are batches of rows, `List (List Int)`; `x[:, -1:]` keeps the last entry
of each row as a singleton (and maps an empty row to an empty row, as
slicing does); `x[:, -1]` is plain indexing and raises `IndexError` on a
zero-length dimension.
-/

/-- `x[:, -1:]` on a `(batch, seq)` matrix. -/
def lastColumn (x : List (List Int)) : List (List Int) :=
  x.map fun r => r.drop (r.length - 1)

/-- What `GrafomerModel.prepare_inputs_for_generation` returns (model.py
lines 176-186).  `C` is the cache type, `E` the encoder-outputs type,
`H` the head-mask type, `M` the attention-mask type. -/
structure GrafomerGenerationInputs (C E H M : Type) where
  input_ids : Option (List (List Int))
  encoder_outputs : Option E
  past_key_values : Option C
  decoder_input_ids : List (List Int)
  attention_mask : Option M
  head_mask : Option H
  decoder_head_mask : Option H
  cross_attn_head_mask : Option H
  use_cache : Option Bool

/-- `GrafomerModel.prepare_inputs_for_generation` (model.py lines
160-186): when `past is not None` the decoder input ids are cut to
`decoder_input_ids[:, -1:]`; everything else is passed through, with
`input_ids` hardwired to `None`. -/
def GrafomerModel.prepare_inputs_for_generation {C E H M : Type}
    (decoder_input_ids : List (List Int)) (past : Option C)
    (attention_mask : Option M) (head_mask : Option H)
    (decoder_head_mask : Option H) (cross_attn_head_mask : Option H)
    (use_cache : Option Bool) (encoder_outputs : Option E) :
    GrafomerGenerationInputs C E H M :=
  let decoder_input_ids :=
    match past with
    | some _ => lastColumn decoder_input_ids
    | none => decoder_input_ids
  { input_ids := none
    encoder_outputs := encoder_outputs
    past_key_values := past
    decoder_input_ids := decoder_input_ids
    attention_mask := attention_mask
    head_mask := head_mask
    decoder_head_mask := decoder_head_mask
    cross_attn_head_mask := cross_attn_head_mask
    use_cache := use_cache }

/-- Python truthiness of the `past` argument (`if past:`): `None` and an
empty tuple are falsy, a non-empty tuple is truthy. -/
def pastTruthy {C : Type} : Option (List C) → Bool
  | none => false
  | some c => !c.isEmpty

/-- `x[:, -1].unsqueeze(-1)` on a `(batch, seq)` matrix: raises
`IndexError` when the sequence dimension is empty, otherwise keeps the
last element of each row as a singleton. -/
def lastTokenIndex (x : List (List Int)) : Except PyError (List (List Int)) :=
  if x.any (·.isEmpty) then
    .error (.indexError "index -1 is out of bounds for dimension 1 with size 0")
  else
    .ok (x.map fun r => r.drop (r.length - 1))

/-- Row-wise `attention_mask.long().cumsum(-1) - 1` followed by
`masked_fill_(attention_mask == 0, 1)`. -/
def positionIdsFromMask (mask : List (List Int)) : List (List Int) :=
  mask.map fun r =>
    let sums := (List.range r.length).map fun i => (r.take (i + 1)).sum - 1
    List.zipWith (fun mv pv => if mv = 0 then 1 else pv) r sums

/-- What `StudentDecoderLMHeadModel.prepare_inputs_for_generation`
returns (student_model.py lines 703-708). -/
structure StudentGenerationInputs (C : Type) where
  input_ids : List (List Int)
  past_key_values : Option (List C)
  use_cache : Option Bool
  position_ids : Option (List (List Int))

/-- `StudentDecoderLMHeadModel.prepare_inputs_for_generation`
(student_model.py lines 684-708): when `past` is truthy, `input_ids` (and
`token_type_ids` when given) are cut to their last token; `position_ids`
are recomputed from the attention mask when one is supplied and none were
given, cut to the last position when `past` is truthy, and set to `None`
otherwise. -/
def StudentDecoderLMHeadModel.prepare_inputs_for_generation {C : Type}
    (input_ids : List (List Int)) (past : Option (List C))
    (token_type_ids : Option (List (List Int)))
    (attention_mask : Option (List (List Int)))
    (position_ids : Option (List (List Int)))
    (use_cache : Option Bool) :
    Except PyError (StudentGenerationInputs C) := do
  let input_ids ←
    if pastTruthy past then lastTokenIndex input_ids else pure input_ids
  let _token_type_ids ←
    match token_type_ids with
    | some tti =>
      if pastTruthy past then (lastTokenIndex tti).map some
      else pure (some tti)
    | none => pure (none : Option (List (List Int)))
  let position_ids ←
    match attention_mask, position_ids with
    | some am, none =>
      let pos := positionIdsFromMask am
      if pastTruthy past then (lastTokenIndex pos).map some
      else pure (some pos)
    | _, _ => pure (none : Option (List (List Int)))
  pure { input_ids := input_ids
         past_key_values := past
         use_cache := use_cache
         position_ids := position_ids }

/-!
Embedding of the input contracts of the student decoder and encoder
forward passes.  Only the shapes matter for these checks: `input_ids` has
shape `(batch, seq)`, `inputs_embeds` has shape `(batch, seq, hidden)`,
and `attention_mask`, when supplied, is carried as its shape.
-/

/-- The input-contract region of `StudentDecoderModel.forward`
(student_model.py lines 506-548): raises `ValueError` when both or
neither of `input_ids` / `inputs_embeds` is supplied; derives
`batch_size` from the supplied input; and, only when an
`attention_mask` is supplied, raises `ValueError` unless
`batch_size > 0`.  Returns the derived batch size. -/
def StudentDecoderModel.forwardContract
    (input_ids : Option (ℕ × ℕ)) (inputs_embeds : Option (ℕ × ℕ × ℕ))
    (attention_mask : Option (ℕ × ℕ)) : Except PyError ℕ := do
  let batch_size ←
    match input_ids, inputs_embeds with
    | some _, some _ =>
      Except.error (.valueError
        "You cannot specify both input_ids and inputs_embeds at the same time")
    | some shape, none => pure shape.1
    | none, some shape => pure shape.1
    | none, none =>
      Except.error (.valueError
        "You have to specify either input_ids or inputs_embeds")
  match attention_mask with
  | some _ =>
    if batch_size ≤ 0 then
      Except.error (.valueError "batch_size has to be defined and > 0")
    else
      pure batch_size
  | none => pure batch_size

/-- The input-contract region of `StudentEncoderModel.forward`
(student_model.py lines 1435-1443): takes the shape of `input_ids` when
supplied (with no check that `inputs_embeds` is absent), else the leading
shape of `inputs_embeds`, and raises `ValueError` only when neither is
supplied.  There is no batch-size check. -/
def StudentEncoderModel.forwardContract
    (input_ids : Option (ℕ × ℕ)) (inputs_embeds : Option (ℕ × ℕ × ℕ)) :
    Except PyError (ℕ × ℕ) :=
  match input_ids with
  | some shape => .ok shape
  | none =>
    match inputs_embeds with
    | some shape => .ok (shape.1, shape.2.1)
    | none =>
      .error (.valueError
        "You have to specify either input_ids or inputs_embeds")

/-!
Theorems.
-/

/-- Every call of `generate_weight_group` raises a Python exception,
whatever the arguments and whatever teacher (if any) is registered. -/
lemma generate_weight_group_always_errors {P : Type}
    (tm : Option (TeacherModel P)) (name : String) (i n : Int) :
    ∃ e, TeacherWeightGroup.generate_weight_group tm name i n =
      Except.error e := by
  unfold TeacherWeightGroup.generate_weight_group
  rcases splitDotOnce name.data with _ | ⟨part, rest⟩
  · exact ⟨_, rfl⟩
  · dsimp only
    split
    · rcases tm with _ | t
      · exact ⟨_, rfl⟩
      · rcases h : t.encoder with _ | ⟨p, ps⟩ <;> simp only [h] <;> exact ⟨_, rfl⟩
    · split
      · rcases tm with _ | t
        · exact ⟨_, rfl⟩
        · rcases h : t.decoder with _ | ⟨p, ps⟩ <;> simp only [h] <;> exact ⟨_, rfl⟩
      · exact ⟨_, rfl⟩

/-- C10: For every argument tuple, constructing a `WeightGenerator` or a
`BiasGenerator` raises a Python exception before returning (the selector
they call first references unbound names; the constructors also never call
`nn.Module.__init__` before assigning `nn.Parameter` attributes, and
`init_weights_` reads the undefined attributes `W_i`, `W_o`), so no
`StudentLinear` instance can ever be successfully constructed. -/
theorem student_constructors_always_raise {P : Type}
    (tm : Option (TeacherModel P)) (name : String)
    (i n w_in w_out bias_out lin_in lin_out : Int) :
    (∃ e, WeightGenerator.init tm name i n w_in w_out = Except.error e) ∧
    (∃ e, BiasGenerator.init tm name i n bias_out = Except.error e) ∧
    (∃ e, StudentLinear.init tm name i n lin_in lin_out = Except.error e) := by
  obtain ⟨e, he⟩ := generate_weight_group_always_errors tm name i n
  refine ⟨⟨e, ?_⟩, ⟨e, ?_⟩, ⟨e, ?_⟩⟩
  · unfold WeightGenerator.init; rw [he]; rfl
  · unfold BiasGenerator.init; rw [he]; rfl
  · unfold StudentLinear.init WeightGenerator.init; rw [he]; rfl

/-- C1: The parameter-group selection never computes the claimed slice: at
the claimed scenario (registered teacher with 12 encoder tensors of the
role, `num_student_layers = 4`, student indices 0 and 3) the call raises
`NameError`, because the method body references `class_name`,
`layer_index` and `num_layers`, none of which is defined. -/
theorem generate_weight_group_slice_scenario_raises :
    TeacherWeightGroup.generate_weight_group (some teacher12)
      "encoder.attention.self.query" 0 4 =
      Except.error (.nameError "name class_name is not defined") ∧
    TeacherWeightGroup.generate_weight_group (some teacher12)
      "encoder.attention.self.query" 3 4 =
      Except.error (.nameError "name class_name is not defined") :=
  ⟨rfl, rfl⟩

/-- C2: None of the invalid configurations raises a `ConfigurationError`
(no such error type exists in the code): with no registered teacher the
selector raises `AttributeError`; with a parameter role that matches no
teacher tensors it raises `NameError` before the role filter is ever
evaluated; with `num_student_layers = 0` it raises the same `NameError`
before the layer count is ever used. -/
theorem configuration_failures_raise_python_errors :
    TeacherWeightGroup.generate_weight_group (P := Nat) none
      "encoder.attention.self.query" 0 4 =
      Except.error (.attributeError "NoneType object has no attribute encoder") ∧
    TeacherWeightGroup.generate_weight_group (some teacher12)
      "decoder.no.such.role" 0 4 =
      Except.error (.nameError "name class_name is not defined") ∧
    TeacherWeightGroup.generate_weight_group (some teacher12)
      "encoder.attention.self.query" 0 0 =
      Except.error (.nameError "name class_name is not defined") :=
  ⟨rfl, rfl, rfl⟩

/-- C3: Even a fully valid configuration (registered teacher exposing the
role, positive layer counts, matching dimensions) never reaches a
synthesize call: `WeightGenerator.__init__` raises `NameError` while
selecting the teacher group, so there is no construction-time shape check
and no output shape to speak of. -/
theorem weightGenerator_valid_config_construction_raises :
    WeightGenerator.init (some teacher12) "decoder.mlp.c_fc" 0 4 768 3072 =
      Except.error (.nameError "name class_name is not defined") :=
  rfl

/-- C5: The selections for adjacent student-layer indices are never
produced: at student indices 1 and 2 of the 12-teacher-layer, 4-student
scenario the selector raises `NameError` instead of returning contiguous
teacher-layer slices. -/
theorem adjacent_layer_selection_scenario_raises :
    TeacherWeightGroup.generate_weight_group (some teacher12)
      "encoder.attention.self.query" 1 4 =
      Except.error (.nameError "name class_name is not defined") ∧
    TeacherWeightGroup.generate_weight_group (some teacher12)
      "encoder.attention.self.query" 2 4 =
      Except.error (.nameError "name class_name is not defined") :=
  ⟨rfl, rfl⟩

/-- C4: Every element of a synthesized tensor is within `|scale|` of the
offset: the value is `tanh(contracted) * W + B` and the real hyperbolic
tangent (what `nn.Tanh` computes) is bounded by 1 in absolute value, for
both the weight and the bias generator, whatever the teacher group and
the mixing, scale and offset parameters. -/
theorem synthesized_tensor_within_scale_of_offset
    (wg : WeightGeneratorState) (bg : BiasGeneratorState)
    (hwg : wg.tanh = Real.tanh) (hbg : bg.tanh = Real.tanh) (o i : ℕ) :
    |(WeightGenerator.forward wg).1 o i - wg.B o i| ≤ |wg.W o i| ∧
    |(BiasGenerator.forward bg).1 o - bg.B o| ≤ |bg.W o| := by
  constructor
  · show |wg.tanh (multi_mode_dot3 wg.adj wg.W_l wg.subset o i) * wg.W o i +
        wg.B o i - wg.B o i| ≤ |wg.W o i|
    rw [hwg, add_sub_cancel_right, abs_mul]
    exact mul_le_of_le_one_left (abs_nonneg _) (abs_tanh_le_one _)
  · show |bg.tanh (multi_mode_dot2 bg.adj bg.W_l bg.subset o) * bg.W o +
        bg.B o - bg.B o| ≤ |bg.W o|
    rw [hbg, add_sub_cancel_right, abs_mul]
    exact mul_le_of_le_one_left (abs_nonneg _) (abs_tanh_le_one _)

/-- Witness for C4 at a concrete generator state. -/
theorem synthesized_tensor_within_scale_of_offset_witness :
    |(WeightGenerator.forward
        { adj := 3, subset := fun _ _ _ => 1, W_l := fun _ => 1,
          W := fun _ _ => 2, B := fun _ _ => 5, tanh := Real.tanh }).1 0 0 -
      (5 : ℝ)| ≤ |(2 : ℝ)| ∧
    |(BiasGenerator.forward
        { adj := 3, subset := fun _ _ => 1, W_l := fun _ => 1,
          W := fun _ => 2, B := fun _ => 5, tanh := Real.tanh }).1 0 -
      (5 : ℝ)| ≤ |(2 : ℝ)| :=
  synthesized_tensor_within_scale_of_offset
    { adj := 3, subset := fun _ _ _ => 1, W_l := fun _ => 1,
      W := fun _ _ => 2, B := fun _ _ => 5, tanh := Real.tanh }
    { adj := 3, subset := fun _ _ => 1, W_l := fun _ => 1,
      W := fun _ => 2, B := fun _ => 5, tanh := Real.tanh }
    rfl rfl 0 0

/-- C8: Applying `StudentLinear.forward` leaves the generator states
unchanged (recomputing the weight and bias has no side effect), so a
second call with the same input returns the same output. -/
theorem studentLinear_forward_deterministic (s : StudentLinearState)
    (in_features : ℕ) (inputs : ℕ → ℕ → ℝ) :
    (StudentLinear.forward s in_features inputs).2 = s ∧
    (StudentLinear.forward (StudentLinear.forward s in_features inputs).2
        in_features inputs).1 =
      (StudentLinear.forward s in_features inputs).1 :=
  ⟨rfl, rfl⟩

/-- C6: On every forward call of `GrafomerModel` — in the train branch
(decoder input ids supplied) as well as in the eval branch — the returned
logits are the pretrained decoder head applied to the sum of the decoder
body hidden state and the graft bridge output. -/
theorem grafomer_logits_residual_head {T Tok M : Type} [Add T] [Add M]
    [Inhabited T] (m : GrafomerModel T Tok M) (input_ids : Tok)
    (attention_mask : M) (decoder_input_ids : Option Tok)
    (decoder_attention_mask : M) (encoder_outputs : Option (List T))
    (use_cache : Option Bool) :
    (m.forward input_ids attention_mask decoder_input_ids
        decoder_attention_mask encoder_outputs use_cache).logits =
      m.decoder_head
        (m.decoderHidden input_ids decoder_input_ids decoder_attention_mask
            use_cache +
          m.bridgeOutput input_ids attention_mask decoder_input_ids
            decoder_attention_mask encoder_outputs use_cache) := by
  cases decoder_input_ids <;> cases encoder_outputs <;> rfl

/-- Dropping all but the last entry of a list keeps exactly its last
element (and nothing for the empty list). -/
lemma drop_length_sub_one {α : Type} (r : List α) :
    r.drop (r.length - 1) = r.getLast?.toList := by
  induction r with
  | nil => rfl
  | cons a t ih =>
    cases t with
    | nil => rfl
    | cons b t2 =>
      have h1 : (a :: b :: t2).drop ((a :: b :: t2).length - 1) =
          (b :: t2).drop ((b :: t2).length - 1) := by
        simp [List.length_cons]
      rw [h1, ih, List.getLast?_cons_cons]

/-- C7: Input preparation for generation feeds only the most recent token
once a non-empty cache is present, and passes the input through unchanged
on the first step.  For `GrafomerModel`, a present cache cuts the decoder
input ids to the last column (shape `(batch, 1)` when every row is
non-empty) and an absent cache leaves them unchanged; for
`StudentDecoderLMHeadModel`, a truthy (non-empty) cache does the same to
`input_ids` and an absent cache leaves them unchanged. -/
theorem generation_step_trims_to_last_token {C E H M : Type}
    (dii ids : List (List Int)) (c : C) (cache : List C)
    (am : Option M) (hm dhm cahm : Option H) (uc : Option Bool)
    (eo : Option E) (pos : Option (List (List Int)))
    (hdii : ∀ r ∈ dii, r ≠ []) (hids : ∀ r ∈ ids, r ≠ [])
    (hcache : cache ≠ []) :
    (GrafomerModel.prepare_inputs_for_generation dii (none : Option C) am
        hm dhm cahm uc eo).decoder_input_ids = dii ∧
    (GrafomerModel.prepare_inputs_for_generation dii (some c) am hm dhm
        cahm uc eo).decoder_input_ids =
      dii.map (fun r => r.getLast?.toList) ∧
    (∀ rr ∈ (GrafomerModel.prepare_inputs_for_generation dii (some c) am
        hm dhm cahm uc eo).decoder_input_ids, rr.length = 1) ∧
    (StudentDecoderLMHeadModel.prepare_inputs_for_generation (C := C) ids
        none none none pos uc).map (fun s => s.input_ids) =
      Except.ok ids ∧
    (StudentDecoderLMHeadModel.prepare_inputs_for_generation ids
        (some cache) none none pos uc).map (fun s => s.input_ids) =
      Except.ok (ids.map fun r => r.getLast?.toList) := by
  have hmap : ∀ (x : List (List Int)), (∀ r ∈ x, r ≠ []) →
      ∀ rr ∈ x.map (fun r => r.drop (r.length - 1)), rr.length = 1 := by
    intro x hx rr hrr
    obtain ⟨r, hr, hrrr⟩ := List.mem_map.1 hrr
    rw [← hrrr, drop_length_sub_one]
    rcases List.exists_cons_of_ne_nil (hx r hr) with ⟨a, t, rfl⟩
    simp [List.getLast?_eq_getLast]
  have hnotempty : ids.any (fun r => r.isEmpty) = false := by
    rw [List.any_eq_false]
    intro r hr
    simpa [List.isEmpty_iff] using hids r hr
  have htruthy : pastTruthy (some cache) = true := by
    simp [pastTruthy, List.isEmpty_iff, hcache]
  refine ⟨rfl, ?_, ?_, ?_, ?_⟩
  · show lastColumn dii = dii.map fun r => r.getLast?.toList
    unfold lastColumn
    exact List.map_congr_left fun r _ => drop_length_sub_one r
  · show ∀ rr ∈ lastColumn dii, rr.length = 1
    exact hmap dii hdii
  · unfold StudentDecoderLMHeadModel.prepare_inputs_for_generation
    cases pos <;> rfl
  · unfold StudentDecoderLMHeadModel.prepare_inputs_for_generation
    rw [htruthy]
    unfold lastTokenIndex
    rw [hnotempty]
    have h2 : (ids.map fun r => r.drop (r.length - 1)) =
        ids.map fun r => r.getLast?.toList :=
      List.map_congr_left fun r _ => drop_length_sub_one r
    cases pos <;> simp [h2, Except.map]

/-- Witness for C7 at a concrete batch and cache. -/
theorem generation_step_trims_to_last_token_witness :
    (GrafomerModel.prepare_inputs_for_generation [[1, 2, 3], [4, 5, 6]]
        (none : Option Nat) (none : Option Unit) (none : Option Unit)
        none none none (none : Option Unit)).decoder_input_ids =
      [[1, 2, 3], [4, 5, 6]] ∧
    (GrafomerModel.prepare_inputs_for_generation [[1, 2, 3], [4, 5, 6]]
        (some 0) (none : Option Unit) (none : Option Unit) none none
        none (none : Option Unit)).decoder_input_ids =
      [[1, 2, 3], [4, 5, 6]].map (fun r => r.getLast?.toList) ∧
    (∀ rr ∈ (GrafomerModel.prepare_inputs_for_generation
        [[1, 2, 3], [4, 5, 6]] (some 0) (none : Option Unit)
        (none : Option Unit) none none none
        (none : Option Unit)).decoder_input_ids, rr.length = 1) ∧
    (StudentDecoderLMHeadModel.prepare_inputs_for_generation (C := Nat)
        [[7, 8], [9, 10]] none none none none none).map
      (fun s => s.input_ids) = Except.ok [[7, 8], [9, 10]] ∧
    (StudentDecoderLMHeadModel.prepare_inputs_for_generation
        [[7, 8], [9, 10]] (some [0]) none none none none).map
      (fun s => s.input_ids) =
      Except.ok ([[7, 8], [9, 10]].map fun r => r.getLast?.toList) :=
  generation_step_trims_to_last_token [[1, 2, 3], [4, 5, 6]]
    [[7, 8], [9, 10]] 0 [0] none none none none none none none
    (by decide) (by decide) (by decide)

/-- C9 counterexample: the claim says the input-contract error is raised
exactly when both or neither of the token-id and embedded inputs is
supplied, and also when the batch size is not positive.  But the encoder
forward accepts both inputs supplied simultaneously (shape `(2, 3)` ids
together with shape `(2, 3, 8)` embeddings) without raising, and the
decoder forward accepts a batch size of 0 without raising when no
attention mask is supplied. -/
theorem input_contract_claim_counterexample :
    StudentEncoderModel.forwardContract (some (2, 3)) (some (2, 3, 8)) =
      Except.ok (2, 3) ∧
    StudentDecoderModel.forwardContract (some (0, 3)) none none =
      Except.ok 0 :=
  ⟨rfl, rfl⟩

/-- C9 amended: the decoder forward raises `ValueError` exactly when both
or neither of the token-id and embedded inputs is supplied, and raises
the batch-size error only when an attention mask is supplied and the
batch size is 0; the encoder forward raises only when neither input is
supplied (supplying both is accepted, the token ids taking precedence)
and never checks the batch size. -/
theorem input_contract_characterization :
    (∀ (i : ℕ × ℕ) (e : ℕ × ℕ × ℕ) (am : Option (ℕ × ℕ)),
      StudentDecoderModel.forwardContract (some i) (some e) am =
        Except.error (.valueError
          "You cannot specify both input_ids and inputs_embeds at the same time")) ∧
    (∀ am : Option (ℕ × ℕ),
      StudentDecoderModel.forwardContract none none am =
        Except.error (.valueError
          "You have to specify either input_ids or inputs_embeds")) ∧
    (∀ b s : ℕ,
      StudentDecoderModel.forwardContract (some (b, s)) none none =
        Except.ok b) ∧
    (∀ b s h : ℕ,
      StudentDecoderModel.forwardContract none (some (b, s, h)) none =
        Except.ok b) ∧
    (∀ (b s : ℕ) (am : ℕ × ℕ),
      StudentDecoderModel.forwardContract (some (b, s)) none (some am) =
        if b = 0 then
          Except.error (.valueError "batch_size has to be defined and > 0")
        else Except.ok b) ∧
    (∀ (b s h : ℕ) (am : ℕ × ℕ),
      StudentDecoderModel.forwardContract none (some (b, s, h)) (some am) =
        if b = 0 then
          Except.error (.valueError "batch_size has to be defined and > 0")
        else Except.ok b) ∧
    (∀ (i : ℕ × ℕ) (e : Option (ℕ × ℕ × ℕ)),
      StudentEncoderModel.forwardContract (some i) e = Except.ok i) ∧
    (∀ b s h : ℕ,
      StudentEncoderModel.forwardContract none (some (b, s, h)) =
        Except.ok (b, s)) ∧
    StudentEncoderModel.forwardContract none none =
      Except.error (.valueError
        "You have to specify either input_ids or inputs_embeds") := by
  refine ⟨?_, ?_, fun b s => rfl, fun b s h => rfl, ?_, ?_, fun i e => rfl,
    fun b s h => rfl, rfl⟩
  · intro i e am
    cases am <;> rfl
  · intro am
    cases am <;> rfl
  · intro b s am
    by_cases hb : b = 0 <;>
      simp [StudentDecoderModel.forwardContract, hb, Nat.le_zero, pure, Except.pure, Bind.bind, Except.bind]
  · intro b s h am
    by_cases hb : b = 0 <;>
      simp [StudentDecoderModel.forwardContract, hb, Nat.le_zero, pure, Except.pure, Bind.bind, Except.bind]
